import Mathlib

/-!
Shallow embedding of the `fever_smart` Home Assistant integration
(`homeassistant/components/fever_smart/`: `sensor.py`, `coordinator.py`,
`config_flow.py`), together with theorems settling the frozen claims about it.

Python dicts are embedded as association lists (`List (κ × ν)`) that preserve
insertion order; Python sets as `Finset`; `None`-able values as `Option`.
Types imported from the second-party libraries `sensor_state_data` and
`pyfeversmart` and from the host framework are embedded only to the depth the
integration code uses them.
-/

namespace FeverSmart

/-- The `sensor_state_data.SensorDeviceClass` enum (`SSDSensorDeviceClass` in
`sensor.py`).  Only a representative subset of members is embedded: the three
used as keys of `SENSOR_DESCRIPTIONS` plus others that can occur in incoming
updates. -/
inductive SSDSensorDeviceClass
  | TEMPERATURE
  | BATTERY
  | SIGNAL_STRENGTH
  | HUMIDITY
  | PRESSURE
  | COUNT
deriving DecidableEq, Repr

/-- String value of a `sensor_state_data.SensorDeviceClass` member, as used in
f-strings. -/
def SSDSensorDeviceClass.str : SSDSensorDeviceClass → String
  | .TEMPERATURE => "temperature"
  | .BATTERY => "battery"
  | .SIGNAL_STRENGTH => "signal_strength"
  | .HUMIDITY => "humidity"
  | .PRESSURE => "pressure"
  | .COUNT => "count"

/-- The `sensor_state_data.Units` enum; a representative subset. -/
inductive Units
  | TEMP_CELSIUS
  | TEMP_FAHRENHEIT
  | PERCENTAGE
  | SIGNAL_STRENGTH_DECIBELS_MILLIWATT
  | PRESSURE_HPA
deriving DecidableEq, Repr

/-- String value of a `sensor_state_data.Units` member (it is a str-valued
enum, so it is also usable directly as a unit string). -/
def Units.str : Units → String
  | .TEMP_CELSIUS => "°C"
  | .TEMP_FAHRENHEIT => "°F"
  | .PERCENTAGE => "%"
  | .SIGNAL_STRENGTH_DECIBELS_MILLIWATT => "dBm"
  | .PRESSURE_HPA => "hPa"

/-- Modelled from the spec: `const.DOMAIN` of the integration (`const.py` is
not among the source files; the spec names the integration `fever_smart`).
No claim depends on the exact string, only on it being one fixed string. -/
def DOMAIN : String := "fever_smart"

/-- `homeassistant.const.UnitOfTemperature.CELSIUS`. -/
def UnitOfTemperature.CELSIUS : String := "°C"

/-- `homeassistant.const.PERCENTAGE`. -/
def PERCENTAGE : String := "%"

/-- The Home Assistant `SensorDeviceClass` enum (distinct from the
`sensor_state_data` one); only the members `sensor.py` uses. -/
inductive HASensorDeviceClass
  | TEMPERATURE
  | BATTERY
  | SIGNAL_STRENGTH
deriving DecidableEq, Repr

/-- `homeassistant.components.sensor.SensorEntityDescription`, restricted to
the fields `sensor.py` sets. -/
structure SensorEntityDescription where
  key : String
  device_class : HASensorDeviceClass
  native_unit_of_measurement : String
  state_class : String
  entity_registry_enabled_default : Bool := true
  entity_category : Option String := none
deriving DecidableEq, Repr

/-- `sensor_state_data.DeviceKey` (dataclass with `key: str`,
`device_id: str | None`). -/
structure DeviceKey where
  key : String
  device_id : Option String
deriving DecidableEq, Repr

/-- `homeassistant...passive_update_processor.PassiveBluetoothEntityKey`
(dataclass with `key: str`, `device_id: str | None`). -/
structure PassiveBluetoothEntityKey where
  key : String
  device_id : Option String
deriving DecidableEq, Repr

/-- `sensor_state_data.SensorDescription`, restricted to the fields
`sensor.py` reads.  `device_class` is `Optional` in the library, which is why
`_to_sensor_key` asserts it is not `None`. -/
structure SensorDescription where
  device_class : Option SSDSensorDeviceClass
  native_unit_of_measurement : Option Units
deriving DecidableEq, Repr

/-- A native sensor value (`None | str | int | float` in
`sensor_state_data.SensorValue.native_value`).  The integration passes the
value through untouched, so `float` values behave exactly like the embedded
`Int` and `String` cases and are not modelled separately. -/
inductive NativeValue
  | ofInt : Int → NativeValue
  | ofStr : String → NativeValue
  | null
deriving DecidableEq, Repr

/-- `sensor_state_data.SensorValue`, restricted to the fields `sensor.py`
reads (`name: str`, `native_value`). -/
structure SensorValue where
  name : String
  native_value : NativeValue
deriving DecidableEq, Repr

/-- `sensor_state_data.SensorDeviceInfo` (all fields optional). -/
structure SensorDeviceInfo where
  name : Option String := none
  manufacturer : Option String := none
  model : Option String := none
  sw_version : Option String := none
deriving DecidableEq, Repr

/-- An element of a Home Assistant device-`identifiers` set.  The framework
expects `(domain, id)` string pairs, but a Python `set` is heterogeneous and
`sensor.py` in one place inserts bare strings, so both shapes are embedded. -/
inductive Ident
  | pstr : String → Ident
  | ppair : String × String → Ident
deriving DecidableEq, Repr

/-- `homeassistant.helpers.device_registry.DeviceInfo` (a `TypedDict`),
restricted to the keys `sensor.py` sets; an absent key is `none`. -/
structure DeviceInfo where
  name : Option String := none
  manufacturer : Option String := none
  model : Option String := none
  sw_version : Option String := none
  identifiers : Option (Finset Ident) := none
deriving DecidableEq

/-- `sensor_state_data.SensorUpdate`: the dicts are embedded as association
lists in iteration order.  The `devices` keys are device ids (`str`, per the
annotation of `sensor_device_info_to_hass_device_info`). -/
structure SensorUpdate where
  devices : List (String × SensorDeviceInfo)
  entity_descriptions : List (DeviceKey × SensorDescription)
  entity_values : List (DeviceKey × SensorValue)
deriving DecidableEq, Repr

/-- `PassiveBluetoothDataUpdate`, restricted to the four fields
`sensor_update_to_bluetooth_data_update` fills. -/
structure PassiveBluetoothDataUpdate where
  devices : List (String × DeviceInfo)
  entity_descriptions : List (PassiveBluetoothEntityKey × SensorEntityDescription)
  entity_data : List (PassiveBluetoothEntityKey × NativeValue)
  entity_names : List (PassiveBluetoothEntityKey × Option String)
deriving DecidableEq

/-- `SENSOR_DESCRIPTIONS` from `sensor.py`, as an association list in source
order.  Keys are `(SSDSensorDeviceClass, Units)` pairs; the second component
is `Option Units` because `_to_sensor_key` produces `Units | None` there. -/
def SENSOR_DESCRIPTIONS :
    List ((SSDSensorDeviceClass × Option Units) × SensorEntityDescription) :=
  [ ((SSDSensorDeviceClass.TEMPERATURE, some Units.TEMP_CELSIUS),
     { key := SSDSensorDeviceClass.TEMPERATURE.str ++ "_" ++ Units.TEMP_CELSIUS.str
       device_class := HASensorDeviceClass.TEMPERATURE
       native_unit_of_measurement := UnitOfTemperature.CELSIUS
       state_class := "measurement" }),
    ((SSDSensorDeviceClass.BATTERY, some Units.PERCENTAGE),
     { key := SSDSensorDeviceClass.BATTERY.str ++ "_" ++ Units.PERCENTAGE.str
       device_class := HASensorDeviceClass.BATTERY
       native_unit_of_measurement := PERCENTAGE
       state_class := "measurement" }),
    ((SSDSensorDeviceClass.SIGNAL_STRENGTH,
      some Units.SIGNAL_STRENGTH_DECIBELS_MILLIWATT),
     { key := SSDSensorDeviceClass.SIGNAL_STRENGTH.str ++ "_" ++
        Units.SIGNAL_STRENGTH_DECIBELS_MILLIWATT.str
       device_class := HASensorDeviceClass.SIGNAL_STRENGTH
       native_unit_of_measurement := Units.SIGNAL_STRENGTH_DECIBELS_MILLIWATT.str
       state_class := "measurement"
       entity_registry_enabled_default := false
       entity_category := some "diagnostic" }) ]

/-- Python `key in SENSOR_DESCRIPTIONS` / `SENSOR_DESCRIPTIONS[key]`. -/
def SENSOR_DESCRIPTIONS.lookup (k : SSDSensorDeviceClass × Option Units) :
    Option SensorEntityDescription :=
  (SENSOR_DESCRIPTIONS.find? (fun p => p.1 = k)).map Prod.snd

/-- `_device_key_to_bluetooth_entity_key` from `sensor.py`:
`PassiveBluetoothEntityKey(device_key.key, device_key.device_id)`. -/
def _device_key_to_bluetooth_entity_key (device_key : DeviceKey) :
    PassiveBluetoothEntityKey :=
  { key := device_key.key, device_id := device_key.device_id }

/-- `_to_sensor_key` from `sensor.py`.  The Python function asserts
`description.device_class is not None` and then returns the pair; `none` here
embeds the `AssertionError` raised when `device_class` is `None`. -/
def _to_sensor_key (description : SensorDescription) :
    Option (SSDSensorDeviceClass × Option Units) :=
  description.device_class.map
    (fun dc => (dc, description.native_unit_of_measurement))

/-- `sensor_device_info_to_hass_device_info` from `sensor.py`.  Note that the
identifiers entry is `{DOMAIN, device_id}` — a Python set of the two *strings*
`DOMAIN` and `device_id`, not of a `(DOMAIN, device_id)` tuple. -/
def sensor_device_info_to_hass_device_info
    (sensor_device_info : SensorDeviceInfo) (device_id : String) : DeviceInfo :=
  { name := sensor_device_info.name
    manufacturer := sensor_device_info.manufacturer
    model := sensor_device_info.model
    sw_version := sensor_device_info.sw_version
    identifiers := some {Ident.pstr DOMAIN, Ident.pstr device_id} }

/-- The `PassiveBluetoothDataUpdate` literal that the four dict
comprehensions of `sensor_update_to_bluetooth_data_update` build on the
assertion-free path.  The `entity_descriptions` comprehension keeps an entry
only if its sensor key is `in SENSOR_DESCRIPTIONS` and then indexes that
dict; with the dict lookup embedded as `Option` this is the `bind`/`map`
chain below. -/
def sensorUpdateTranslation (sensor_update : SensorUpdate) :
    PassiveBluetoothDataUpdate :=
  { devices := sensor_update.devices.map
      (fun p => (p.1, sensor_device_info_to_hass_device_info p.2 p.1))
    entity_descriptions := sensor_update.entity_descriptions.filterMap
      (fun p =>
        (_to_sensor_key p.2).bind (fun sk =>
          (SENSOR_DESCRIPTIONS.lookup sk).map
            (fun ed => (_device_key_to_bluetooth_entity_key p.1, ed))))
    entity_data := sensor_update.entity_values.map
      (fun p => (_device_key_to_bluetooth_entity_key p.1, p.2.native_value))
    entity_names := sensor_update.entity_values.map
      (fun p => (_device_key_to_bluetooth_entity_key p.1, some p.2.name)) }

/-- `sensor_update_to_bluetooth_data_update` from `sensor.py`.  The
`entity_descriptions` comprehension calls `_to_sensor_key` on every entry, so
an entry whose `device_class` is `None` raises `AssertionError`; that path is
embedded as `Except.error`. -/
def sensor_update_to_bluetooth_data_update (sensor_update : SensorUpdate) :
    Except String PassiveBluetoothDataUpdate :=
  if sensor_update.entity_descriptions.all
      (fun p => (_to_sensor_key p.2).isSome) then
    Except.ok (sensorUpdateTranslation sensor_update)
  else
    Except.error "AssertionError: description.device_class is not None"

/-- Python `f"{x}"` on a `str | None` value. -/
def fmtOpt : Option String → String
  | some s => s
  | none => "None"

/-- The attribute state `FeverSmartBluetoothSensorEntity.__init__` establishes
(`sensor.py`).  The processor, description and context arguments are taken but
do not influence the attributes computed from the entity key. -/
structure SensorEntityState where
  attr_device_info : DeviceInfo
  attr_unique_id : String
deriving DecidableEq

/-- `FeverSmartBluetoothSensorEntity.__init__` from `sensor.py`: sets
`_attr_device_info` to `{ATTR_IDENTIFIERS: {(DOMAIN, f"{device_id}")}}`, sets
`_attr_unique_id` to `f"{device_id}-{key}"`, then (since the fresh device info
has no name) sets its name to `device_id`. -/
def FeverSmartBluetoothSensorEntity.init {α β : Type}
    (_processor : α) (entity_key : PassiveBluetoothEntityKey)
    (_description : SensorEntityDescription) (_context : β) :
    SensorEntityState :=
  let device_id := entity_key.device_id
  let key := entity_key.key
  let device_info : DeviceInfo :=
    { identifiers := some {Ident.ppair (DOMAIN, fmtOpt device_id)} }
  { attr_device_info := { device_info with name := device_id }
    attr_unique_id := fmtOpt device_id ++ "-" ++ key }

/-! ## coordinator.py -/

/-- `homeassistant.components.bluetooth.BluetoothScanningMode`. -/
inductive BluetoothScanningMode
  | active
  | passive
deriving DecidableEq, Repr

/-- `homeassistant.components.bluetooth.match.BluetoothCallbackMatcher`,
restricted to the fields `coordinator.py` sets. -/
structure BluetoothCallbackMatcher where
  manufacturer_id : Option Nat := none
  connectable : Bool
deriving DecidableEq, Repr

/-- A registration made by the coordinator with the host bluetooth API, with
the (inherited) handler method identified by name. -/
inductive Registration
  | bleEvent (handler : String) (matcher : BluetoothCallbackMatcher)
      (mode : BluetoothScanningMode)
  | unavailable (handler : String) (address : String) (connectable : Bool)
deriving DecidableEq, Repr

/-- The per-instance state of
`FeverSmartPassiveBluetoothProcessorCoordinator` relevant to `_async_start`
(set by `__init__` via `super().__init__`). -/
structure Coordinator where
  address : String
  mode : BluetoothScanningMode
  connectable : Bool
deriving DecidableEq, Repr

/-- `FeverSmartPassiveBluetoothProcessorCoordinator._async_start` from
`coordinator.py`: the registrations it appends to `self._on_stop`, in order.
It registers the inherited `_async_handle_bluetooth_event` against a matcher
with `manufacturer_id=8199, connectable=False`, and the inherited
`_async_handle_unavailable` for the coordinator's address. -/
def Coordinator.asyncStart (c : Coordinator) : List Registration :=
  [ Registration.bleEvent "_async_handle_bluetooth_event"
      { manufacturer_id := some 8199, connectable := false } c.mode,
    Registration.unavailable "_async_handle_unavailable" c.address
      c.connectable ]

/-- Modelled from the spec: the lifecycle hooks of the parent class
`PassiveBluetoothProcessorCoordinator` (the host framework file
`homeassistant/components/bluetooth/passive_update_processor.py` is not among
the source files).  Per the spec's passive-update-processor pattern the parent
owns initialization, start/stop hooks, the advertisement event handler and
the unavailability handler. -/
def parentLifecycleHooks : List String :=
  ["__init__", "_async_start", "_async_stop",
   "_async_handle_bluetooth_event", "_async_handle_unavailable"]

/-- The methods defined in the class body of
`FeverSmartPassiveBluetoothProcessorCoordinator` (`coordinator.py`), in
source order; each is a `def` that overrides the like-named parent method. -/
def coordinatorDefinedMethods : List String := ["__init__", "_async_start"]

/-! ## config_flow.py -/

/-- `homeassistant.components.bluetooth.BluetoothServiceInfo`, restricted to
the fields `config_flow.py` reads. -/
structure BluetoothServiceInfo where
  address : String
  name : String
deriving DecidableEq, Repr

/-- The external parser library `pyfeversmart.FeverSmartAdvParser` (a black
box per the spec).  `config_flow.py` constructs a fresh parser, feeds it one
advertisement via `supported(discovery_info)`, and then reads the derived
attributes, so the parser is embedded as pure functions of that
advertisement. -/
structure FeverSmartAdvParser where
  supported : BluetoothServiceInfo → Bool
  primary_device_id : BluetoothServiceInfo → String
  title : BluetoothServiceInfo → Option String
  get_device_name : BluetoothServiceInfo → Option String

/-- The mutable state of a `ConfigFlow` instance (`config_flow.py`):
`__init__` sets the three `_discovered*` fields; `async_set_unique_id` sets
`unique_id`; showing a form records `context["title_placeholders"]["name"]`.
`_discovered_device` holds a parser that has parsed one advertisement, so it
is embedded as that advertisement. -/
structure ConfigFlowState where
  discovery_info : Option BluetoothServiceInfo := none
  discovered_device : Option BluetoothServiceInfo := none
  discovered_devices : List (String × String) := []
  unique_id : Option String := none
  title_placeholders : Option String := none
deriving DecidableEq, Repr

/-- The state `ConfigFlow.__init__` establishes. -/
def ConfigFlowState.initial : ConfigFlowState := {}

/-- The outcome of a config-flow step. -/
inductive FlowResult
  | abort (reason : String)
  | showForm (step_id : String) (fields : List String)
      (choices : List (String × String))
  | createEntry (title : String) (data : List (String × String))
  | updateEntryAbort (entry_id : String) (data : List (String × String))
      (reason : String)
  | stepError (msg : String)
deriving DecidableEq, Repr

/-- Python dict lookup on an association list. -/
def dictGet (l : List (String × String)) (k : String) : Option String :=
  (l.find? (fun p => p.1 = k)).map Prod.snd

/-- Python `a or b` for `a : str | None` (both `None` and `""` are falsy). -/
def pyOr (a : Option String) (b : String) : String :=
  match a with
  | some s => if s = "" then b else s
  | none => b

/-- `ConfigFlow._async_get_or_create_entry` from `config_flow.py`.  `data`
gets a `"key"` entry only when `key` is truthy; with `entry_id` in the flow
context (reauth) the existing entry is updated and the flow aborts with
`reauth_successful`, otherwise an entry titled from
`context["title_placeholders"]["name"]` is created. -/
def _async_get_or_create_entry (st : ConfigFlowState)
    (ctx_entry_id : Option String) (key : Option String) : FlowResult :=
  let data : List (String × String) :=
    match key with
    | some k => if k = "" then [] else [("key", k)]
    | none => []
  match ctx_entry_id with
  | some eid => FlowResult.updateEntryAbort eid data "reauth_successful"
  | none =>
    match st.title_placeholders with
    | some name => FlowResult.createEntry name data
    | none => FlowResult.stepError "KeyError: title_placeholders"

/-- `ConfigFlow.async_step_bluetooth_confirm` from `config_flow.py`.  With
user input it returns `_async_get_or_create_entry(user_input["key"])`;
without it computes the title placeholder
(`device.title or device.get_device_name() or discovery_info.name`) and shows
the `bluetooth_confirm` form asking for the required field `key`. -/
def async_step_bluetooth_confirm (p : FeverSmartAdvParser)
    (ctx_entry_id : Option String) (st : ConfigFlowState)
    (user_input : Option (List (String × String))) :
    ConfigFlowState × FlowResult :=
  match st.discovered_device with
  | none =>
    (st, FlowResult.stepError "AssertionError: self._discovered_device is not None")
  | some device =>
    match st.discovery_info with
    | none =>
      (st, FlowResult.stepError "AssertionError: self._discovery_info is not None")
    | some discovery_info =>
      match user_input with
      | some input =>
        match dictGet input "key" with
        | some key => (st, _async_get_or_create_entry st ctx_entry_id (some key))
        | none => (st, FlowResult.stepError "KeyError: key")
      | none =>
        let title :=
          pyOr (p.title device) (pyOr (p.get_device_name device)
            discovery_info.name)
        let st1 := { st with title_placeholders := some title }
        (st1, FlowResult.showForm "bluetooth_confirm" ["key"] [])

/-- `ConfigFlow.async_step_bluetooth` from `config_flow.py`.  `configured` is
the set of unique IDs of existing config entries, against which
`_abort_if_unique_id_configured` checks. -/
def async_step_bluetooth (p : FeverSmartAdvParser) (configured : List String)
    (ctx_entry_id : Option String) (st : ConfigFlowState)
    (discovery_info : BluetoothServiceInfo) : ConfigFlowState × FlowResult :=
  if p.supported discovery_info = false then
    (st, FlowResult.abort "not_supported")
  else
    let did := p.primary_device_id discovery_info
    let st1 := { st with unique_id := some did }
    if did ∈ configured then
      (st1, FlowResult.abort "already_configured")
    else
      let st2 := { st1 with
        discovery_info := some discovery_info
        discovered_device := some discovery_info }
      async_step_bluetooth_confirm p ctx_entry_id st2 none

/-- The scan loop of `ConfigFlow.async_step_user` (`config_flow.py`): fold
over `async_discovered_service_info(hass, False)`, skipping addresses already
configured (in `self._async_current_ids()`) or already collected, and adding
supported devices to `self._discovered_devices` with their display name. -/
def scanDiscovered (p : FeverSmartAdvParser) (configured : List String)
    (scan : List BluetoothServiceInfo) (acc : List (String × String)) :
    List (String × String) :=
  match scan with
  | [] => acc
  | info :: rest =>
    if info.address ∈ configured ∨ (dictGet acc info.address).isSome then
      scanDiscovered p configured rest acc
    else if p.supported info then
      scanDiscovered p configured rest
        (acc ++ [(info.address,
          pyOr (p.title info) (pyOr (p.get_device_name info) info.name))])
    else
      scanDiscovered p configured rest acc

/-- `ConfigFlow.async_step_user` from `config_flow.py`.  With user input it
sets the flow's unique ID to the chosen address, aborts if that address is
already configured, and otherwise stores a hard-coded key `"0m0d3s2c"` via
`_async_get_or_create_entry`; without input it scans, aborts with
`no_devices_found` when nothing unconfigured and supported was discovered,
and otherwise shows the `user` form offering the discovered addresses. -/
def async_step_user (p : FeverSmartAdvParser) (configured : List String)
    (ctx_entry_id : Option String) (scan : List BluetoothServiceInfo)
    (st : ConfigFlowState) (user_input : Option (List (String × String))) :
    ConfigFlowState × FlowResult :=
  match user_input with
  | some input =>
    match dictGet input "address" with
    | none => (st, FlowResult.stepError "KeyError: address")
    | some address =>
      let st1 := { st with unique_id := some address }
      if address ∈ configured then
        (st1, FlowResult.abort "already_configured")
      else
        match dictGet st1.discovered_devices address with
        | none => (st1, FlowResult.stepError "KeyError: address")
        | some name =>
          let st2 := { st1 with title_placeholders := some name }
          (st2, _async_get_or_create_entry st2 ctx_entry_id (some "0m0d3s2c"))
  | none =>
    let discovered := scanDiscovered p configured scan st.discovered_devices
    let st1 := { st with discovered_devices := discovered }
    if discovered = [] then
      (st1, FlowResult.abort "no_devices_found")
    else
      (st1, FlowResult.showForm "user" ["address"] discovered)

/-! ## Concrete fixtures (inputs used by witness theorems) -/

/-- A concrete `SensorUpdate`: one device, a temperature value, and two
descriptions of which the humidity one is not a `SENSOR_DESCRIPTIONS` key. -/
def updateC1 : SensorUpdate :=
  { devices := [("abc", { name := some "Fever Smart abc" })]
    entity_descriptions :=
      [({ key := "temperature", device_id := some "abc" },
        { device_class := some SSDSensorDeviceClass.TEMPERATURE
          native_unit_of_measurement := some Units.TEMP_CELSIUS }),
       ({ key := "humidity", device_id := some "abc" },
        { device_class := some SSDSensorDeviceClass.HUMIDITY
          native_unit_of_measurement := some Units.PERCENTAGE })]
    entity_values :=
      [({ key := "temperature", device_id := some "abc" },
        { name := "Temperature", native_value := NativeValue.ofInt 37 })] }

/-- The same concrete `SensorUpdate`, fixture for the C3 witness. -/
def updateC3 : SensorUpdate := updateC1

/-- The translated entry the C3 witness picks out of
`sensorUpdateTranslation updateC3`. -/
def entryC3 : PassiveBluetoothEntityKey × SensorEntityDescription :=
  ({ key := "temperature", device_id := some "abc" },
   { key := "temperature_°C"
     device_class := HASensorDeviceClass.TEMPERATURE
     native_unit_of_measurement := "°C"
     state_class := "measurement" })

/-- A concrete `SensorUpdate` fixture for the C9 witness. -/
def updateC9 : SensorUpdate :=
  { devices := []
    entity_descriptions := []
    entity_values :=
      [({ key := "temperature", device_id := some "abc" },
        { name := "Temperature", native_value := NativeValue.ofInt 37 }),
       ({ key := "battery", device_id := some "abc" },
        { name := "Battery", native_value := NativeValue.ofInt 90 })] }

/-- A concrete parser fixture: every advertisement is supported and parses to
device id `dev1`. -/
def parserSupported : FeverSmartAdvParser :=
  { supported := fun _ => true
    primary_device_id := fun _ => "dev1"
    title := fun _ => some "Fever Smart dev1"
    get_device_name := fun _ => none }

/-- A concrete parser fixture: no advertisement is supported. -/
def parserUnsupported : FeverSmartAdvParser :=
  { supported := fun _ => false
    primary_device_id := fun _ => "dev1"
    title := fun _ => none
    get_device_name := fun _ => none }

/-- A concrete temperature `SensorEntityDescription` fixture. -/
def descTemp : SensorEntityDescription :=
  { key := "temperature_°C"
    device_class := HASensorDeviceClass.TEMPERATURE
    native_unit_of_measurement := "°C"
    state_class := "measurement" }

/-- A concrete battery `SensorEntityDescription` fixture. -/
def descBatt : SensorEntityDescription :=
  { key := "battery_%"
    device_class := HASensorDeviceClass.BATTERY
    native_unit_of_measurement := "%"
    state_class := "measurement" }

/-! ## Helper lemmas -/

/-- Mapping a pair-valued function that keeps the first component does not
change the key list. -/
lemma map_fst_map_pair {α β γ : Type} (l : List (α × β)) (f : α × β → γ) :
    (l.map (fun p => (p.1, f p))).map Prod.fst = l.map Prod.fst := by
  induction l with
  | nil => rfl
  | cons x xs ih => simp [ih]

/-- Inversion of the translation: an `ok` result is exactly the
assertion-free path (every description has a `device_class`) and returns the
four translated maps. -/
lemma translation_ok_iff {u : SensorUpdate} {r : PassiveBluetoothDataUpdate} :
    sensor_update_to_bluetooth_data_update u = Except.ok r ↔
      (u.entity_descriptions.all (fun p => (_to_sensor_key p.2).isSome) = true ∧
       r = sensorUpdateTranslation u) := by
  unfold sensor_update_to_bluetooth_data_update
  split
  case isTrue hc => simp [hc, eq_comm]
  case isFalse hc => simp [hc]

/-- Membership in the translated `entity_descriptions` map, characterised by
the source entries it came from. -/
lemma mem_translation_entity_descriptions {u : SensorUpdate}
    {q : PassiveBluetoothEntityKey × SensorEntityDescription} :
    q ∈ (sensorUpdateTranslation u).entity_descriptions ↔
      ∃ dk d sk, (dk, d) ∈ u.entity_descriptions ∧ _to_sensor_key d = some sk ∧
        SENSOR_DESCRIPTIONS.lookup sk = some q.2 ∧
        q.1 = _device_key_to_bluetooth_entity_key dk := by
  unfold sensorUpdateTranslation
  simp only [List.mem_filterMap, Option.bind_eq_some, Option.map_eq_some']
  constructor
  · rintro ⟨⟨dk, d⟩, hmem, sk, hsk, ed, hlook, heq⟩
    refine ⟨dk, d, sk, hmem, hsk, ?_, ?_⟩
    · rw [← heq]
      exact hlook
    · rw [← heq]
  · rintro ⟨dk, d, sk, hmem, hsk, hlook, hkey⟩
    refine ⟨(dk, d), hmem, sk, hsk, q.2, hlook, ?_⟩
    obtain ⟨q1, q2⟩ := q
    simp only at hkey ⊢
    simp [hkey]

/-- A successful `SENSOR_DESCRIPTIONS` lookup means the key is among the
dict's keys. -/
lemma lookup_mem_keys {k : SSDSensorDeviceClass × Option Units}
    {ed : SensorEntityDescription} (h : SENSOR_DESCRIPTIONS.lookup k = some ed) :
    k ∈ SENSOR_DESCRIPTIONS.map Prod.fst := by
  unfold SENSOR_DESCRIPTIONS.lookup at h
  rw [Option.map_eq_some'] at h
  obtain ⟨pr, hfind, hsnd⟩ := h
  have hmem := List.mem_of_find?_eq_some hfind
  have hp : pr.1 = k := by simpa using List.find?_some hfind
  exact hp ▸ List.mem_map_of_mem Prod.fst hmem

/-- The scan loop never adds an address from `configured`. -/
lemma scanDiscovered_not_configured (p : FeverSmartAdvParser)
    (configured : List String) (scan : List BluetoothServiceInfo) :
    ∀ acc : List (String × String), (∀ x ∈ acc, x.1 ∉ configured) →
      ∀ x ∈ scanDiscovered p configured scan acc, x.1 ∉ configured := by
  induction scan with
  | nil =>
    intro acc hacc x hx
    exact hacc x hx
  | cons info rest ih =>
    intro acc hacc x hx
    unfold scanDiscovered at hx
    by_cases h1 : info.address ∈ configured ∨ (dictGet acc info.address).isSome
    · rw [if_pos h1] at hx
      exact ih acc hacc x hx
    · rw [if_neg h1] at hx
      push_neg at h1
      by_cases h2 : p.supported info = true
      · rw [if_pos h2] at hx
        refine ih _ ?_ x hx
        intro y hy
        rcases List.mem_append.mp hy with hy | hy
        · exact hacc y hy
        · have : y = (info.address,
              pyOr (p.title info) (pyOr (p.get_device_name info) info.name)) := by
            simpa using hy
          rw [this]
          exact h1.1
      · rw [if_neg h2] at hx
        exact ih acc hacc x hx

/-! ## Claims -/

/-- C1: for every `SensorUpdate` `u` on the assertion-free path (every
entity description carries a `device_class`, which `_to_sensor_key`
asserts), `sensor_update_to_bluetooth_data_update u` returns a
`PassiveBluetoothDataUpdate` whose `devices` map has exactly the keys of
`u.devices` with each value converted by
`sensor_device_info_to_hass_device_info`, whose `entity_data` maps each
converted device key of `u.entity_values` to the value's `native_value`,
whose `entity_names` maps each converted device key to the value's `name`,
and whose `entity_descriptions` contains exactly those entries of
`u.entity_descriptions` whose `(device_class, native_unit_of_measurement)`
pair is a key of `SENSOR_DESCRIPTIONS` (each mapped to that dict's value). -/
theorem sensor_update_translation_shape (u : SensorUpdate)
    (h : u.entity_descriptions.all (fun p => (_to_sensor_key p.2).isSome) = true) :
    ∃ r, sensor_update_to_bluetooth_data_update u = Except.ok r ∧
      r.devices.map Prod.fst = u.devices.map Prod.fst ∧
      (∀ did di, (did, di) ∈ u.devices →
        (did, sensor_device_info_to_hass_device_info di did) ∈ r.devices) ∧
      r.entity_data = u.entity_values.map
        (fun p => (_device_key_to_bluetooth_entity_key p.1, p.2.native_value)) ∧
      r.entity_names = u.entity_values.map
        (fun p => (_device_key_to_bluetooth_entity_key p.1, some p.2.name)) ∧
      (∀ q : PassiveBluetoothEntityKey × SensorEntityDescription,
        q ∈ r.entity_descriptions ↔
          ∃ dk d sk, (dk, d) ∈ u.entity_descriptions ∧
            _to_sensor_key d = some sk ∧
            SENSOR_DESCRIPTIONS.lookup sk = some q.2 ∧
            q.1 = _device_key_to_bluetooth_entity_key dk) := by
  refine ⟨sensorUpdateTranslation u, translation_ok_iff.mpr ⟨h, rfl⟩,
    map_fst_map_pair u.devices _, ?_, rfl, rfl,
    fun q => mem_translation_entity_descriptions⟩
  intro did di hmem
  exact List.mem_map_of_mem
    (fun p : String × SensorDeviceInfo =>
      (p.1, sensor_device_info_to_hass_device_info p.2 p.1)) hmem

/-- Witness for C1 at the concrete update `updateC1`. -/
theorem sensor_update_translation_shape_witness :
    updateC1.entity_descriptions.all (fun p => (_to_sensor_key p.2).isSome) = true ∧
    (∃ r, sensor_update_to_bluetooth_data_update updateC1 = Except.ok r ∧
      r.devices.map Prod.fst = updateC1.devices.map Prod.fst ∧
      (∀ did di, (did, di) ∈ updateC1.devices →
        (did, sensor_device_info_to_hass_device_info di did) ∈ r.devices) ∧
      r.entity_data = updateC1.entity_values.map
        (fun p => (_device_key_to_bluetooth_entity_key p.1, p.2.native_value)) ∧
      r.entity_names = updateC1.entity_values.map
        (fun p => (_device_key_to_bluetooth_entity_key p.1, some p.2.name)) ∧
      (∀ q : PassiveBluetoothEntityKey × SensorEntityDescription,
        q ∈ r.entity_descriptions ↔
          ∃ dk d sk, (dk, d) ∈ updateC1.entity_descriptions ∧
            _to_sensor_key d = some sk ∧
            SENSOR_DESCRIPTIONS.lookup sk = some q.2 ∧
            q.1 = _device_key_to_bluetooth_entity_key dk)) :=
  ⟨by decide, sensor_update_translation_shape updateC1 (by decide)⟩

/-- C2: `_async_start` registers exactly one BLE advertisement-event
callback, and its matcher requires `manufacturer_id = 8199` with
`connectable = False`; no callback for any other manufacturer ID is
registered. -/
theorem coordinator_registers_only_manufacturer_8199 (c : Coordinator) :
    c.asyncStart.filterMap
        (fun r => match r with
          | Registration.bleEvent handler m mode => some (handler, m, mode)
          | Registration.unavailable _ _ _ => none) =
      [("_async_handle_bluetooth_event",
        { manufacturer_id := some 8199, connectable := false }, c.mode)] := rfl

/-- C3: `SENSOR_DESCRIPTIONS` has exactly the three keys temperature/°C,
battery/%, signal-strength/dBm (with matching Home Assistant device classes
and units in the values), and every entry of a translated update's
`entity_descriptions` comes from a source entry whose
`(device_class, native_unit_of_measurement)` pair is one of these three
keys — any other entry is dropped. -/
theorem sensor_descriptions_exactly_three :
    SENSOR_DESCRIPTIONS.map Prod.fst =
      [(SSDSensorDeviceClass.TEMPERATURE, some Units.TEMP_CELSIUS),
       (SSDSensorDeviceClass.BATTERY, some Units.PERCENTAGE),
       (SSDSensorDeviceClass.SIGNAL_STRENGTH,
        some Units.SIGNAL_STRENGTH_DECIBELS_MILLIWATT)] ∧
    SENSOR_DESCRIPTIONS.map
        (fun p => (p.2.device_class, p.2.native_unit_of_measurement)) =
      [(HASensorDeviceClass.TEMPERATURE, UnitOfTemperature.CELSIUS),
       (HASensorDeviceClass.BATTERY, PERCENTAGE),
       (HASensorDeviceClass.SIGNAL_STRENGTH, "dBm")] ∧
    ∀ (u : SensorUpdate) (r : PassiveBluetoothDataUpdate),
      sensor_update_to_bluetooth_data_update u = Except.ok r →
      ∀ q ∈ r.entity_descriptions,
        ∃ dk d sk, (dk, d) ∈ u.entity_descriptions ∧
          _to_sensor_key d = some sk ∧
          sk ∈ SENSOR_DESCRIPTIONS.map Prod.fst ∧
          SENSOR_DESCRIPTIONS.lookup sk = some q.2 ∧
          q.1 = _device_key_to_bluetooth_entity_key dk := by
  refine ⟨rfl, rfl, ?_⟩
  intro u r hr q hq
  rw [(translation_ok_iff.mp hr).2] at hq
  obtain ⟨dk, d, sk, hmem, hsk, hlook, hkey⟩ :=
    mem_translation_entity_descriptions.mp hq
  exact ⟨dk, d, sk, hmem, hsk, lookup_mem_keys hlook, hlook, hkey⟩

/-- Witness for C3 at the concrete update `updateC3` and its translated
temperature entry `entryC3`. -/
theorem sensor_descriptions_exactly_three_witness :
    ∃ dk d sk, (dk, d) ∈ updateC3.entity_descriptions ∧
      _to_sensor_key d = some sk ∧
      sk ∈ SENSOR_DESCRIPTIONS.map Prod.fst ∧
      SENSOR_DESCRIPTIONS.lookup sk = some entryC3.2 ∧
      entryC3.1 = _device_key_to_bluetooth_entity_key dk :=
  sensor_descriptions_exactly_three.2.2 updateC3
    (sensorUpdateTranslation updateC3) rfl entryC3 (by decide)

/-- Keys of a list mapped to pairs are the mapped first components. -/
lemma map_fst_map_mk {α γ δ : Type} (l : List α) (k : α → γ) (f : α → δ) :
    (l.map (fun a => (k a, f a))).map Prod.fst = l.map k := by
  induction l with
  | nil => rfl
  | cons x xs ih => simp [ih]

/-- C4 (refuting evaluation): submitting the manual user step creates a
config entry whose stored decryption key is the hard-coded string
`"0m0d3s2c"`; the submitted form carried only the address field, so no key
was asked of or supplied by the user on this path. -/
theorem user_step_stores_hardcoded_key :
    async_step_user parserSupported [] none []
        { ConfigFlowState.initial with
            discovered_devices := [("AA:BB:CC:DD:EE:FF", "Fever Smart dev1")] }
        (some [("address", "AA:BB:CC:DD:EE:FF")]) =
      ({ ConfigFlowState.initial with
           discovered_devices := [("AA:BB:CC:DD:EE:FF", "Fever Smart dev1")]
           unique_id := some "AA:BB:CC:DD:EE:FF"
           title_placeholders := some "Fever Smart dev1" },
       FlowResult.createEntry "Fever Smart dev1" [("key", "0m0d3s2c")]) := rfl

/-- C5: the unique ID of a `FeverSmartBluetoothSensorEntity` is the string
`f"{device_id}-{key}"` computed only from the entity key: two entities
constructed from equal entity keys — with any processors, descriptions and
contexts — receive equal unique IDs. -/
theorem entity_unique_id_deterministic {α₁ β₁ α₂ β₂ : Type}
    (ek₁ ek₂ : PassiveBluetoothEntityKey) (h : ek₁ = ek₂)
    (p₁ : α₁) (p₂ : α₂) (d₁ d₂ : SensorEntityDescription) (c₁ : β₁) (c₂ : β₂) :
    (FeverSmartBluetoothSensorEntity.init p₁ ek₁ d₁ c₁).attr_unique_id =
      fmtOpt ek₁.device_id ++ "-" ++ ek₁.key ∧
    (FeverSmartBluetoothSensorEntity.init p₁ ek₁ d₁ c₁).attr_unique_id =
      (FeverSmartBluetoothSensorEntity.init p₂ ek₂ d₂ c₂).attr_unique_id := by
  subst h
  exact ⟨rfl, rfl⟩

/-- Witness for C5: two constructions from the same entity key but different
processors, descriptions and contexts agree on the unique ID `"abc-temperature"`. -/
theorem entity_unique_id_deterministic_witness :
    (FeverSmartBluetoothSensorEntity.init (0 : Nat)
        { key := "temperature", device_id := some "abc" } descTemp
        (0 : Nat)).attr_unique_id = fmtOpt (some "abc") ++ "-" ++ "temperature" ∧
    (FeverSmartBluetoothSensorEntity.init (0 : Nat)
        { key := "temperature", device_id := some "abc" } descTemp
        (0 : Nat)).attr_unique_id =
      (FeverSmartBluetoothSensorEntity.init (1 : Nat)
        { key := "temperature", device_id := some "abc" } descBatt
        (1 : Nat)).attr_unique_id :=
  entity_unique_id_deterministic
    { key := "temperature", device_id := some "abc" }
    { key := "temperature", device_id := some "abc" } rfl 0 1 descTemp descBatt 0 1

/-- C6: the coordinator subclass defines exactly two methods, each
overriding a lifecycle hook of its parent
`PassiveBluetoothProcessorCoordinator`, and its `_async_start` registers the
parent's inherited event forwarder `_async_handle_bluetooth_event` as the
BLE callback. -/
theorem coordinator_overrides_two_hooks :
    coordinatorDefinedMethods.length = 2 ∧
    (∀ m ∈ coordinatorDefinedMethods, m ∈ parentLifecycleHooks) ∧
    ∀ c : Coordinator, ∃ matcher mode,
      Registration.bleEvent "_async_handle_bluetooth_event" matcher mode ∈
        c.asyncStart := by
  refine ⟨rfl, by decide, ?_⟩
  intro c
  exact ⟨{ manufacturer_id := some 8199, connectable := false }, c.mode,
    by simp [Coordinator.asyncStart]⟩

/-- Witness for C6 at the method `_async_start` and a concrete coordinator. -/
theorem coordinator_overrides_two_hooks_witness :
    "_async_start" ∈ parentLifecycleHooks ∧
    ∃ matcher mode,
      Registration.bleEvent "_async_handle_bluetooth_event" matcher mode ∈
        (Coordinator.mk "AA:BB" BluetoothScanningMode.passive false).asyncStart :=
  ⟨coordinator_overrides_two_hooks.2.1 "_async_start" (by decide),
   coordinator_overrides_two_hooks.2.2
     (Coordinator.mk "AA:BB" BluetoothScanningMode.passive false)⟩

/-- C7: in the bluetooth discovery step an unsupported advertisement aborts
with `not_supported` leaving the flow state untouched; a supported one sets
the flow's unique ID to the parser's `primary_device_id`, and the step
aborts with `already_configured` when that ID already belongs to a config
entry, so the same device cannot be configured twice via discovery. -/
theorem bluetooth_discovery_step_behavior (p : FeverSmartAdvParser)
    (configured : List String) (ctx : Option String) (st : ConfigFlowState)
    (info : BluetoothServiceInfo) :
    (p.supported info = false →
      async_step_bluetooth p configured ctx st info =
        (st, FlowResult.abort "not_supported")) ∧
    (p.supported info = true →
      (async_step_bluetooth p configured ctx st info).1.unique_id =
        some (p.primary_device_id info) ∧
      (p.primary_device_id info ∈ configured →
        (async_step_bluetooth p configured ctx st info).2 =
          FlowResult.abort "already_configured")) := by
  constructor
  · intro hs
    simp [async_step_bluetooth, hs]
  · intro hs
    by_cases hc : p.primary_device_id info ∈ configured <;>
      simp [async_step_bluetooth, async_step_bluetooth_confirm, hs, hc]

/-- Witness for C7: a supported advertisement whose device id is already
configured records the unique ID and aborts with `already_configured`. -/
theorem bluetooth_discovery_step_behavior_witness :
    (async_step_bluetooth parserSupported ["dev1"] none ConfigFlowState.initial
        { address := "AA", name := "N" }).1.unique_id = some "dev1" ∧
    (async_step_bluetooth parserSupported ["dev1"] none ConfigFlowState.initial
        { address := "AA", name := "N" }).2 =
      FlowResult.abort "already_configured" := by
  have h := (bluetooth_discovery_step_behavior parserSupported ["dev1"] none
    ConfigFlowState.initial { address := "AA", name := "N" }).2 rfl
  exact ⟨h.1, h.2 (by decide)⟩

/-- C8 (refuting evaluation): for device id `"abc"`,
`sensor_device_info_to_hass_device_info` writes the identifier set
`{DOMAIN, "abc"}` (two bare strings) while
`FeverSmartBluetoothSensorEntity.__init__` writes `{(DOMAIN, "abc")}` (one
pair); the two sets are different, so the two paths do not name the same
registry device identifiers. -/
theorem device_identifier_shapes_differ :
    (sensor_device_info_to_hass_device_info {} "abc").identifiers =
      some {Ident.pstr DOMAIN, Ident.pstr "abc"} ∧
    (FeverSmartBluetoothSensorEntity.init (0 : Nat)
        { key := "temperature", device_id := some "abc" } descTemp
        (0 : Nat)).attr_device_info.identifiers =
      some {Ident.ppair (DOMAIN, "abc")} ∧
    (sensor_device_info_to_hass_device_info {} "abc").identifiers ≠
      (FeverSmartBluetoothSensorEntity.init (0 : Nat)
        { key := "temperature", device_id := some "abc" } descTemp
        (0 : Nat)).attr_device_info.identifiers := by
  refine ⟨rfl, rfl, ?_⟩
  decide

/-- C9: the `entity_data` and `entity_names` maps of a translated update
have exactly the same key list, namely the entity keys derived from
`u.entity_values`. -/
theorem entity_data_names_same_keys (u : SensorUpdate)
    (r : PassiveBluetoothDataUpdate)
    (h : sensor_update_to_bluetooth_data_update u = Except.ok r) :
    r.entity_data.map Prod.fst = r.entity_names.map Prod.fst ∧
    r.entity_data.map Prod.fst =
      u.entity_values.map (fun p => _device_key_to_bluetooth_entity_key p.1) := by
  rw [(translation_ok_iff.mp h).2]
  unfold sensorUpdateTranslation
  constructor
  · rw [map_fst_map_mk, map_fst_map_mk]
  · rw [map_fst_map_mk]

/-- Witness for C9 at the concrete update `updateC9`. -/
theorem entity_data_names_same_keys_witness :
    (sensorUpdateTranslation updateC9).entity_data.map Prod.fst =
      (sensorUpdateTranslation updateC9).entity_names.map Prod.fst ∧
    (sensorUpdateTranslation updateC9).entity_data.map Prod.fst =
      updateC9.entity_values.map
        (fun p => _device_key_to_bluetooth_entity_key p.1) :=
  entity_data_names_same_keys updateC9 (sensorUpdateTranslation updateC9) rfl

/-- C10: entering the manual user step without input on a fresh flow aborts
with `no_devices_found` when the scan yields no unconfigured supported
device, and any selection form it shows offers only addresses that are not
already-configured unique IDs. -/
theorem user_step_scan_behavior (p : FeverSmartAdvParser)
    (configured : List String) (ctx : Option String)
    (scan : List BluetoothServiceInfo) :
    (scanDiscovered p configured scan [] = [] →
      async_step_user p configured ctx scan ConfigFlowState.initial none =
        (ConfigFlowState.initial, FlowResult.abort "no_devices_found")) ∧
    (∀ choices, (async_step_user p configured ctx scan
        ConfigFlowState.initial none).2 =
          FlowResult.showForm "user" ["address"] choices →
      ∀ a n, (a, n) ∈ choices → a ∉ configured) := by
  constructor
  · intro he
    simp [async_step_user, ConfigFlowState.initial, he]
  · intro choices hform a n hmem
    by_cases he : scanDiscovered p configured scan [] = []
    · simp [async_step_user, ConfigFlowState.initial, he] at hform
    · simp [async_step_user, ConfigFlowState.initial, he] at hform
      refine scanDiscovered_not_configured p configured scan []
        (by simp) (a, n) ?_
      rw [hform]
      exact hmem

/-- Witness for C10: a scan whose only advertisement is unsupported makes
the fresh user step abort with `no_devices_found`. -/
theorem user_step_scan_behavior_witness :
    async_step_user parserUnsupported [] none
        [{ address := "AA", name := "N" }] ConfigFlowState.initial none =
      (ConfigFlowState.initial, FlowResult.abort "no_devices_found") :=
  (user_step_scan_behavior parserUnsupported [] none
    [{ address := "AA", name := "N" }]).1 rfl

end FeverSmart
